import Mathlib

/-!
Verification of the deer-flow research workflow against its specification.
The definitions below are shallow embeddings of the Python source:
`src/agents/agents.py` (agent factory), `deep-research-api/api/main.py`
(synchronous and streaming endpoints), `deep-research-api/api/models.py`
(data model) and `deep-research-api/api/config.py` (settings).
-/

/-- Mutable agent state handed to the prompt-rendering closure.  The Python
dict carried by the agent graph is modelled by its two relevant components:
the conversational messages and a (possibly stale) locale entry. -/
structure AgentState where
  messages : List String
  locale : String
deriving DecidableEq, Repr

/-- Record of one call to `apply_prompt_template`: the template name, the
state and the locale actually passed.  `apply_prompt_template` itself lives
outside the orchestration core, so only its argument tuple is modelled. -/
structure PromptCall where
  template : String
  state : AgentState
  locale : String
deriving DecidableEq, Repr

/-- The agent value produced by `create_agent` (`src/agents/agents.py`):
name, resolved LLM capability class, the processed tool list, the prompt
closure and the optional pre-model hook. -/
structure Agent (Tool : Type) where
  name : String
  llmType : String
  tools : List Tool
  promptFn : AgentState → PromptCall
  preModelHook : Option (AgentState → AgentState)

/-- Result of `create_agent` together with whether the missing-mapping
warning was logged (`logger.warning` at lines 59-63 of agents.py). -/
structure CreateAgentResult (Tool : Type) where
  agent : Agent Tool
  warnedFallback : Bool

/-- Python truthiness of an `Optional[List[str]]`: `None` and `[]` are
falsy, a non-empty list is truthy (the `if interrupt_before_tools:` test). -/
def pyTruthyList (x : Option (List String)) : Bool :=
  match x with
  | none => false
  | some l => !l.isEmpty

/-- Python `AGENT_LLM_MAP.get(agent_type, "basic")` over an association
list standing for the role→model mapping. -/
def agentLLMMapGet (agentLLMMap : List (String × String)) (agent_type : String) : String :=
  match agentLLMMap.find? (fun p => p.1 == agent_type) with
  | some p => p.2
  | none => "basic"

/-- Shallow embedding of `create_agent` (agents.py lines 18-82).  The tool
interceptor `wrap_tools_with_interceptor` and the role→model mapping
`AGENT_LLM_MAP` are imported from other modules, so they are taken as
parameters.  The prompt closure captures `locale` at construction time via
a default argument, exactly as the source does. -/
def create_agent {Tool : Type}
    (wrap_tools_with_interceptor : List Tool → List String → List Tool)
    (agentLLMMap : List (String × String))
    (agent_name : String) (agent_type : String)
    (tools : List Tool) (prompt_template : String)
    (pre_model_hook : Option (AgentState → AgentState) := none)
    (interrupt_before_tools : Option (List String) := none)
    (locale : String := "en-US") : CreateAgentResult Tool :=
  let processed_tools :=
    if pyTruthyList interrupt_before_tools then
      wrap_tools_with_interceptor tools (interrupt_before_tools.getD [])
    else
      tools
  let warned := (agentLLMMap.find? (fun p => p.1 == agent_type)).isNone
  let llm_type := agentLLMMapGet agentLLMMap agent_type
  { agent :=
      { name := agent_name
        llmType := llm_type
        tools := processed_tools
        promptFn := fun state =>
          { template := prompt_template, state := state, locale := locale }
        preModelHook := pre_model_hook }
    warnedFallback := warned }

/-- C1: for every call to `create_agent` with an `agent_type` that is not a
key of `AGENT_LLM_MAP`, construction does not fail: the fallback warning is
logged and the agent is built with the default LLM capability class
"basic", identical to the agent an explicit mapping of `agent_type` to
"basic" would produce. -/
theorem create_agent_missing_type_falls_back_to_basic {Tool : Type}
    (wrap : List Tool → List String → List Tool)
    (m : List (String × String))
    (agent_name agent_type : String) (tools : List Tool)
    (prompt_template : String)
    (pre_model_hook : Option (AgentState → AgentState))
    (interrupt_before_tools : Option (List String)) (locale : String)
    (hmiss : agent_type ∉ m.map Prod.fst) :
    (create_agent wrap m agent_name agent_type tools prompt_template
        pre_model_hook interrupt_before_tools locale).warnedFallback = true ∧
    (create_agent wrap m agent_name agent_type tools prompt_template
        pre_model_hook interrupt_before_tools locale).agent.llmType = "basic" ∧
    (create_agent wrap m agent_name agent_type tools prompt_template
        pre_model_hook interrupt_before_tools locale).agent =
      (create_agent wrap [(agent_type, "basic")] agent_name agent_type tools
        prompt_template pre_model_hook interrupt_before_tools locale).agent := by
  have hfind : m.find? (fun p => p.1 == agent_type) = none := by
    apply List.find?_eq_none.mpr
    intro p hp
    simp only [Bool.not_eq_true, beq_eq_false_iff_ne, ne_eq]
    intro h
    exact hmiss (List.mem_map.mpr ⟨p, hp, h⟩)
  refine ⟨?_, ?_, ?_⟩
  · simp [create_agent, hfind]
  · simp [create_agent, agentLLMMapGet, hfind]
  · simp [create_agent, agentLLMMapGet, hfind, List.find?]

/-- Witness for C1 at a concrete mapping that lacks the requested type. -/
theorem create_agent_missing_type_falls_back_to_basic_witness :
    "ghost" ∉ ([("researcher", "reasoning"), ("coder", "basic")].map
        (fun p : String × String => p.1)) ∧
    (create_agent (fun ts _ => ts) [("researcher", "reasoning"), ("coder", "basic")]
        "agentX" "ghost" ["tool1"] "tmpl" none none "en-US").warnedFallback = true ∧
    (create_agent (fun ts _ => ts) [("researcher", "reasoning"), ("coder", "basic")]
        "agentX" "ghost" ["tool1"] "tmpl" none none "en-US").agent.llmType = "basic" ∧
    (create_agent (fun ts _ => ts) [("researcher", "reasoning"), ("coder", "basic")]
        "agentX" "ghost" ["tool1"] "tmpl" none none "en-US").agent =
      (create_agent (fun ts _ => ts) [("ghost", "basic")]
        "agentX" "ghost" ["tool1"] "tmpl" none none "en-US").agent := by
  have h : "ghost" ∉ ([("researcher", "reasoning"), ("coder", "basic")].map
      (fun p : String × String => p.1)) := by decide
  have := create_agent_missing_type_falls_back_to_basic
    (fun (ts : List String) _ => ts)
    [("researcher", "reasoning"), ("coder", "basic")]
    "agentX" "ghost" ["tool1"] "tmpl" none none "en-US" h
  exact ⟨h, this.1, this.2.1, this.2.2⟩

/-- C2: the locale passed to `apply_prompt_template` by the prompt closure
always equals the locale captured at construction time; two invocations on
states that differ only in their locale entry render with the same captured
locale. -/
theorem create_agent_prompt_locale_captured {Tool : Type}
    (wrap : List Tool → List String → List Tool)
    (m : List (String × String))
    (agent_name agent_type : String) (tools : List Tool)
    (prompt_template : String)
    (pre_model_hook : Option (AgentState → AgentState))
    (interrupt_before_tools : Option (List String)) (locale : String)
    (s₁ s₂ : AgentState) (hdiff : s₁.messages = s₂.messages) :
    ((create_agent wrap m agent_name agent_type tools prompt_template
        pre_model_hook interrupt_before_tools locale).agent.promptFn s₁).locale
      = locale ∧
    ((create_agent wrap m agent_name agent_type tools prompt_template
        pre_model_hook interrupt_before_tools locale).agent.promptFn s₁).locale
      = ((create_agent wrap m agent_name agent_type tools prompt_template
        pre_model_hook interrupt_before_tools locale).agent.promptFn s₂).locale := by
  constructor <;> simp [create_agent]

/-- Witness for C2 on two states that differ only in locale. -/
theorem create_agent_prompt_locale_captured_witness :
    (⟨["hello"], "fr-FR"⟩ : AgentState).messages
        = (⟨["hello"], "zh-CN"⟩ : AgentState).messages ∧
    ((create_agent (fun (ts : List String) _ => ts) [] "a" "researcher" []
        "tmpl" none none "en-US").agent.promptFn ⟨["hello"], "fr-FR"⟩).locale
      = "en-US" ∧
    ((create_agent (fun (ts : List String) _ => ts) [] "a" "researcher" []
        "tmpl" none none "en-US").agent.promptFn ⟨["hello"], "fr-FR"⟩).locale
      = ((create_agent (fun (ts : List String) _ => ts) [] "a" "researcher" []
        "tmpl" none none "en-US").agent.promptFn ⟨["hello"], "zh-CN"⟩).locale := by
  have h : (⟨["hello"], "fr-FR"⟩ : AgentState).messages
      = (⟨["hello"], "zh-CN"⟩ : AgentState).messages := rfl
  have := create_agent_prompt_locale_captured
    (fun (ts : List String) _ => ts) [] "a" "researcher" [] "tmpl" none none "en-US"
    ⟨["hello"], "fr-FR"⟩ ⟨["hello"], "zh-CN"⟩ h
  exact ⟨h, this.1, this.2⟩

/-- C3: with `interrupt_before_tools` equal to `None` or the empty list the
tool set of the constructed agent is exactly the input tool list, and the
interceptor is applied only when the interrupt list is non-empty. -/
theorem create_agent_tools_unwrapped_when_no_interrupts {Tool : Type}
    (wrap : List Tool → List String → List Tool)
    (m : List (String × String))
    (agent_name agent_type : String) (tools : List Tool)
    (prompt_template : String)
    (pre_model_hook : Option (AgentState → AgentState)) (locale : String)
    (interrupt_before_tools : Option (List String))
    (hempty : interrupt_before_tools = none ∨ interrupt_before_tools = some []) :
    (create_agent wrap m agent_name agent_type tools prompt_template
        pre_model_hook interrupt_before_tools locale).agent.tools = tools ∧
    ∀ l : List String, l ≠ [] →
      (create_agent wrap m agent_name agent_type tools prompt_template
          pre_model_hook (some l) locale).agent.tools = wrap tools l := by
  constructor
  · rcases hempty with h | h <;> subst h <;> simp [create_agent, pyTruthyList]
  · intro l hl
    simp [create_agent, pyTruthyList, hl]

/-- Witness for C3 with `None`, with `[]`, and with a non-empty list. -/
theorem create_agent_tools_unwrapped_when_no_interrupts_witness :
    (create_agent (fun (ts : List String) _ => "wrapped" :: ts) []
        "a" "coder" ["t1", "t2"] "tmpl" none none "en-US").agent.tools
      = ["t1", "t2"] ∧
    (create_agent (fun (ts : List String) _ => "wrapped" :: ts) []
        "a" "coder" ["t1", "t2"] "tmpl" none (some []) "en-US").agent.tools
      = ["t1", "t2"] ∧
    (create_agent (fun (ts : List String) _ => "wrapped" :: ts) []
        "a" "coder" ["t1", "t2"] "tmpl" none (some ["t1"]) "en-US").agent.tools
      = ["wrapped", "t1", "t2"] := by
  have h₁ := create_agent_tools_unwrapped_when_no_interrupts
    (fun (ts : List String) _ => "wrapped" :: ts) [] "a" "coder"
    ["t1", "t2"] "tmpl" none "en-US" none (Or.inl rfl)
  have h₂ := create_agent_tools_unwrapped_when_no_interrupts
    (fun (ts : List String) _ => "wrapped" :: ts) [] "a" "coder"
    ["t1", "t2"] "tmpl" none "en-US" (some []) (Or.inr rfl)
  exact ⟨h₁.1, h₂.1, h₁.2 ["t1"] (by decide)⟩

/-- Request model `ResearchRequest` (api/models.py lines 7-16), with the
pydantic field defaults. -/
structure ResearchRequest where
  query : String
  max_step_num : Option Int := none
  max_plan_iterations : Option Int := none
  enable_clarification : Option Bool := none
  enable_background_investigation : Option Bool := none
  auto_accept_plan : Option Bool := some true
  report_style : Option String := some "academic"
  locale : Option String := some "en-US"
deriving DecidableEq, Repr

/-- Step status enum `StepStatus` (api/models.py lines 19-24). -/
inductive StepStatus where
  | pending
  | in_progress
  | completed
  | failed
deriving DecidableEq, Repr

/-- Response step model `ResearchStep` (api/models.py lines 27-34). -/
structure ResearchStep where
  title : String
  description : String
  step_type : String
  need_search : Bool
  status : StepStatus := StepStatus.pending
  execution_result : Option String := none
deriving DecidableEq, Repr

/-- Response plan model `ResearchPlan` (api/models.py lines 37-43). -/
structure ResearchPlan where
  title : String
  thought : String
  steps : List ResearchStep
  has_enough_context : Bool
  locale : String
deriving DecidableEq, Repr

/-- Error model `ResearchError` (api/models.py lines 68-72). -/
structure ResearchError where
  error : String
  detail : Option String := none
  research_id : Option String := none
deriving DecidableEq, Repr

/-- Server settings (api/config.py): the research-configuration defaults. -/
structure Settings where
  default_max_step_num : Int := 5
  default_max_plan_iterations : Int := 1
  enable_clarification : Bool := true
  enable_background_investigation : Bool := true
deriving DecidableEq, Repr

/-- The module-level `settings = Settings()` instance (api/config.py line 40),
with every field at its declared default. -/
def settings : Settings := {}

/-- Python `x or d` on an `Optional[int]`: `None` and `0` are falsy, every
other integer is truthy. -/
def pyOrInt (x : Option Int) (d : Int) : Int :=
  match x with
  | none => d
  | some v => if v = 0 then d else v

/-- Python `x or d` on an `Optional[str]`: `None` and `""` are falsy. -/
def pyOrStr (x : Option String) (d : String) : String :=
  match x with
  | none => d
  | some v => if v = "" then d else v

/-- `request.max_step_num or settings.default_max_step_num`
(api/main.py line 87, and identically line 207). -/
def resolve_max_step_num (request : ResearchRequest) : Int :=
  pyOrInt request.max_step_num settings.default_max_step_num

/-- `request.max_plan_iterations or settings.default_max_plan_iterations`
(api/main.py line 88, and identically line 208). -/
def resolve_max_plan_iterations (request : ResearchRequest) : Int :=
  pyOrInt request.max_plan_iterations settings.default_max_plan_iterations

/-- One step dict of the terminal state's structured plan.  The response
builder reads only the keys below with `.get`; a workflow-side status key,
when present, is never read (api/main.py lines 137-147), which the unused
`workflow_status` field records. -/
structure StepData where
  title : Option String := none
  description : Option String := none
  step_type : Option String := none
  need_search : Option Bool := none
  execution_res : Option String := none
  workflow_status : Option String := none
deriving DecidableEq, Repr

/-- The terminal state's structured plan dict, with the keys the response
builder reads (api/main.py lines 137-155). -/
structure PlanDict where
  title : Option String := none
  thought : Option String := none
  steps : List StepData := []
  has_enough_context : Option Bool := none
  locale : Option String := none
deriving DecidableEq, Repr

/-- `current_plan` in the terminal state: either a raw textual draft
(a Python `str`) or a structured plan dict. -/
inductive PlanData where
  | raw (text : String)
  | structured (plan : PlanDict)
deriving DecidableEq, Repr

/-- Terminal workflow state as read by the response builder
(api/main.py lines 125-165): each key via `.get` with a default. -/
structure WorkflowResult where
  current_plan : Option PlanData := none
  final_report : Option String := none
  observations : Option (List String) := none
  locale : Option String := none
deriving DecidableEq, Repr

/-- Build one response step from a step dict (api/main.py lines 138-147):
every field defaulted via `.get`, and `status` hard-coded to
`StepStatus.COMPLETED`. -/
def buildResponseStep (sd : StepData) : ResearchStep :=
  { title := sd.title.getD ""
    description := sd.description.getD ""
    step_type := sd.step_type.getD "research"
    need_search := sd.need_search.getD false
    status := StepStatus.completed
    execution_result := sd.execution_res }

/-- Extract the response plan from the terminal state's `current_plan`
(api/main.py lines 125-155): a raw string plan is replaced by a synthesized
default structure; a structured plan is converted field by field. -/
def extractPlan (query : String) (request_locale : Option String)
    (plan_data : PlanData) : ResearchPlan :=
  match plan_data with
  | PlanData.raw _ =>
      { title := query
        thought := "Research completed"
        steps := []
        has_enough_context := true
        locale := pyOrStr request_locale "en-US" }
  | PlanData.structured pd =>
      { title := pd.title.getD query
        thought := pd.thought.getD ""
        steps := pd.steps.map buildResponseStep
        has_enough_context := pd.has_enough_context.getD true
        locale := pd.locale.getD (pyOrStr request_locale "en-US") }

/-- Final response model `ResearchResponse` (api/models.py lines 56-65),
restricted to the fields the claims concern. -/
structure ResearchResponse where
  research_id : String
  query : String
  plan : ResearchPlan
  final_report : String
  observations : List String
  locale : String
deriving DecidableEq, Repr

/-- The HTTP error raised by the synchronous endpoint on failure
(api/main.py lines 179-186): status 500 with a `ResearchError` detail. -/
structure HTTPError where
  status_code : Nat
  detail : ResearchError
deriving DecidableEq, Repr

/-- Shallow embedding of the `research_sync` endpoint (api/main.py lines
72-186).  The workflow run is the `Except` argument: `Except.ok` is a
terminal state, `Except.error` is the exception text raised inside the
`try` block.  On success the response is built from the terminal state; on
exception an HTTP 500 with a structured `ResearchError` is raised. -/
def research_sync (research_id : String) (request : ResearchRequest)
    (run : Except String WorkflowResult) : Except HTTPError ResearchResponse :=
  match run with
  | Except.error e =>
      Except.error
        { status_code := 500
          detail :=
            { error := "Research workflow failed"
              detail := some e
              research_id := some research_id } }
  | Except.ok result =>
      let plan_data := result.current_plan.getD (PlanData.structured {})
      let plan := extractPlan request.query request.locale plan_data
      Except.ok
        { research_id := research_id
          query := request.query
          plan := plan
          final_report := result.final_report.getD ""
          observations := result.observations.getD []
          locale := result.locale.getD (pyOrStr request.locale "en-US") }

/-- C4: when the workflow raises an exception, the synchronous endpoint
returns a structured error carrying the fixed error message, the exception
detail and the run identifier, and no research report is produced. -/
theorem research_sync_error_response (research_id : String)
    (request : ResearchRequest) (e : String) :
    research_sync research_id request (Except.error e) =
      Except.error
        { status_code := 500
          detail :=
            { error := "Research workflow failed"
              detail := some e
              research_id := some research_id } } ∧
    ∀ response : ResearchResponse,
      research_sync research_id request (Except.error e) ≠ Except.ok response := by
  refine ⟨rfl, ?_⟩
  intro response h
  simp [research_sync] at h

/-- C8: every step of the plan returned by the synchronous endpoint from a
structured terminal plan has status `completed`, whatever the underlying
workflow-side step data (in particular a step that ended `failed`). -/
theorem research_sync_steps_always_completed (query : String)
    (request_locale : Option String) (pd : PlanDict) (step : ResearchStep)
    (hmem : step ∈ (extractPlan query request_locale (PlanData.structured pd)).steps) :
    step.status = StepStatus.completed := by
  simp only [extractPlan, List.mem_map] at hmem
  obtain ⟨sd, _, rfl⟩ := hmem
  rfl

/-- Witness for C8: a workflow step recorded as failed still surfaces as
`completed` in the response plan. -/
theorem research_sync_steps_always_completed_witness :
    buildResponseStep
        { title := some "s1", description := some "d1", step_type := some "research"
          need_search := some true, execution_res := some "boom"
          workflow_status := some "failed" } ∈
      (extractPlan "q" (some "en-US")
        (PlanData.structured
          { steps := [{ title := some "s1", description := some "d1"
                        step_type := some "research", need_search := some true
                        execution_res := some "boom"
                        workflow_status := some "failed" }] })).steps ∧
    (buildResponseStep
        { title := some "s1", description := some "d1", step_type := some "research"
          need_search := some true, execution_res := some "boom"
          workflow_status := some "failed" }).status = StepStatus.completed := by
  have hmem : buildResponseStep
      { title := some "s1", description := some "d1", step_type := some "research"
        need_search := some true, execution_res := some "boom"
        workflow_status := some "failed" } ∈
      (extractPlan "q" (some "en-US")
        (PlanData.structured
          { steps := [{ title := some "s1", description := some "d1"
                        step_type := some "research", need_search := some true
                        execution_res := some "boom"
                        workflow_status := some "failed" }] })).steps := by
    simp [extractPlan]
  exact ⟨hmem, research_sync_steps_always_completed "q" (some "en-US") _ _ hmem⟩

/-- C9: a request with `max_step_num = 0` or `max_plan_iterations = 0` is
resolved exactly as if the field were absent: Python truthiness substitutes
the server defaults (5 steps, 1 plan iteration), so a client cannot request
zero steps or zero plan iterations. -/
theorem zero_limits_replaced_by_defaults (request : ResearchRequest)
    (hstep : request.max_step_num = some 0)
    (hiter : request.max_plan_iterations = some 0) :
    resolve_max_step_num request = settings.default_max_step_num ∧
    resolve_max_plan_iterations request = settings.default_max_plan_iterations ∧
    resolve_max_step_num request =
      resolve_max_step_num { request with max_step_num := none } ∧
    resolve_max_plan_iterations request =
      resolve_max_plan_iterations { request with max_plan_iterations := none } ∧
    settings.default_max_step_num = 5 ∧
    settings.default_max_plan_iterations = 1 := by
  refine ⟨?_, ?_, ?_, ?_, rfl, rfl⟩ <;>
    simp [resolve_max_step_num, resolve_max_plan_iterations, pyOrInt, hstep, hiter,
      settings]

/-- Witness for C9 on a concrete request asking for zero of both. -/
theorem zero_limits_replaced_by_defaults_witness :
    ({ query := "q", max_step_num := some 0, max_plan_iterations := some 0 } :
        ResearchRequest).max_step_num = some 0 ∧
    ({ query := "q", max_step_num := some 0, max_plan_iterations := some 0 } :
        ResearchRequest).max_plan_iterations = some 0 ∧
    resolve_max_step_num
        { query := "q", max_step_num := some 0, max_plan_iterations := some 0 } = 5 ∧
    resolve_max_plan_iterations
        { query := "q", max_step_num := some 0, max_plan_iterations := some 0 } = 1 := by
  have h := zero_limits_replaced_by_defaults
    { query := "q", max_step_num := some 0, max_plan_iterations := some 0 } rfl rfl
  exact ⟨rfl, rfl, h.1.trans h.2.2.2.2.1, h.2.1.trans h.2.2.2.2.2⟩

/-- C10: when the terminal state's `current_plan` is a raw string, the
response plan is the synthesized default: title is the query, thought is
"Research completed", no steps, and `has_enough_context = true`. -/
theorem raw_plan_synthesized_default (query : String)
    (request_locale : Option String) (text : String) :
    extractPlan query request_locale (PlanData.raw text) =
      { title := query
        thought := "Research completed"
        steps := []
        has_enough_context := true
        locale := pyOrStr request_locale "en-US" } := rfl

/-- State delta attached to one streamed chunk entry, as read by the
progress builder (api/main.py lines 248-252): only `observations` is read. -/
structure StateDelta where
  observations : Option (List String) := none
deriving DecidableEq, Repr

/-- Progress model `ResearchProgress` (api/models.py lines 46-53),
restricted to the fields the streaming endpoint fills. -/
structure ResearchProgress where
  stage : String
  message : String
  observations : Option (List String)
  current_step : Option Nat
deriving DecidableEq, Repr

/-- One server-sent event of the streaming endpoint: either a progress
update or the structured error emitted on failure. -/
inductive StreamEvent where
  | progress (p : ResearchProgress)
  | failure (e : ResearchError)
deriving DecidableEq, Repr

/-- The progress event built for one `(node_name, state_data)` pair
(api/main.py lines 248-253). -/
def progressEvent (node_name : String) (state_data : StateDelta) : StreamEvent :=
  StreamEvent.progress
    { stage := node_name
      message := "Processing: " ++ node_name
      observations := state_data.observations
      current_step := some (state_data.observations.getD []).length }

/-- The structured error event yielded when the stream fails
(api/main.py lines 262-269). -/
def streamErrorEvent (research_id : String) (e : String) : StreamEvent :=
  StreamEvent.failure
    { error := "Research workflow failed"
      detail := some e
      research_id := some research_id }

/-- Shallow embedding of `event_generator` (api/main.py lines 203-269).
The graph run is given as the list of chunks `graph.astream` yields — each
chunk a dict of `(node_name, state_data)` items, in iteration order —
followed by `none` when the stream reaches `END` normally or `some e` when
an exception with text `e` is raised after the listed chunks.  The nested
loops yield one progress event per pair; the `except` block yields one
error event and ends the stream. -/
def event_generator (research_id : String) :
    List (List (String × StateDelta)) → Option String → List StreamEvent
  | [], none => []
  | [], some e => [streamErrorEvent research_id e]
  | chunk :: rest, err =>
      chunk.map (fun item => progressEvent item.1 item.2) ++
        event_generator research_id rest err

/-- C5: the streaming endpoint yields exactly one progress event per
`(node_name, state_delta)` pair, in the exact order the graph emits them;
the stream ends after the last chunk when the graph reaches `END`, and on
failure ends after a single structured error event appended at the end. -/
theorem event_generator_one_event_per_pair (research_id : String)
    (chunks : List (List (String × StateDelta))) (err : Option String) :
    event_generator research_id chunks err =
      chunks.flatten.map (fun item => progressEvent item.1 item.2) ++
        (match err with
         | none => []
         | some e => [streamErrorEvent research_id e]) := by
  induction chunks with
  | nil => cases err <;> simp [event_generator]
  | cons c cs ih => simp [event_generator, ih]

/-- Modelled from the spec: the nodes of the workflow graph (§4.1); the
graph builder and node implementations (`research_core/graph/builder.py`
and the node functions) are not part of the sources at hand. -/
inductive WFNode where
  | coordinator
  | background_investigator
  | planner
  | human_feedback
  | research_team
  | researcher
  | coder
  | reporter
  | END
deriving DecidableEq, Repr

/-- Modelled from the spec: the run configuration consulted by the graph
(§4.1, §6); the workflow runner that carries it is not in the sources at
hand. -/
structure RunConfig where
  max_plan_iterations : Nat
  auto_accepted_plan : Bool
  enable_background_investigation : Bool
deriving DecidableEq, Repr

/-- Modelled from the spec: the part of WorkflowState claim C6 concerns —
the current node and the count of planning rounds (§3); the state store
implementation is not in the sources at hand. -/
structure WFState where
  node : WFNode
  plan_iterations : Nat
deriving DecidableEq, Repr

/-- Modelled from the spec: the externally determined branch outcomes of
one node visit (LLM routing, human approval, dispatcher choice), which the
spec leaves to the collaborating providers (§4.1, §6). -/
inductive Decision where
  | planHasEnoughContext
  | planNeedsExecution
  | approve
  | reject
  | dispatchResearch
  | dispatchProcessing
  | dispatchDone
deriving DecidableEq, Repr

/-- Modelled from the spec: one transition of the workflow graph (§4.1).
The planner increments `plan_iterations` on each invocation; a rejection at
`human_feedback` returns to the planner only while the bound allows, and
exceeding it forces the plan as-is into `research_team`; the missing node
implementations are `research_core`'s graph nodes. -/
def wfStep (cfg : RunConfig) (s : WFState) (d : Decision) : WFState :=
  match s.node with
  | WFNode.coordinator =>
      if cfg.enable_background_investigation then
        { s with node := WFNode.background_investigator }
      else
        { s with node := WFNode.planner }
  | WFNode.background_investigator => { s with node := WFNode.planner }
  | WFNode.planner =>
      let s' := { s with plan_iterations := s.plan_iterations + 1 }
      match d with
      | Decision.planHasEnoughContext => { s' with node := WFNode.reporter }
      | _ =>
          if cfg.auto_accepted_plan then { s' with node := WFNode.research_team }
          else { s' with node := WFNode.human_feedback }
  | WFNode.human_feedback =>
      match d with
      | Decision.reject =>
          if cfg.max_plan_iterations ≤ s.plan_iterations then
            { s with node := WFNode.research_team }
          else
            { s with node := WFNode.planner }
      | _ => { s with node := WFNode.research_team }
  | WFNode.research_team =>
      match d with
      | Decision.dispatchResearch => { s with node := WFNode.researcher }
      | Decision.dispatchProcessing => { s with node := WFNode.coder }
      | _ => { s with node := WFNode.reporter }
  | WFNode.researcher => { s with node := WFNode.research_team }
  | WFNode.coder => { s with node := WFNode.research_team }
  | WFNode.reporter => { s with node := WFNode.END }
  | WFNode.END => s

/-- Modelled from the spec: the initial state of a run — entry at the
coordinator with no planning round taken yet (§3, §4.1). -/
def initialWFState : WFState :=
  { node := WFNode.coordinator, plan_iterations := 0 }

/-- Modelled from the spec: a run of the workflow graph driven by a
sequence of externally determined branch outcomes (§4.4). -/
def runWorkflow (cfg : RunConfig) (s : WFState) (ds : List Decision) : WFState :=
  ds.foldl (wfStep cfg) s

/-- Inductive invariant for claim C6: the planning-round count never
exceeds the bound, and is strictly below it on every node from which the
planner can still be invoked (so the planner's increment cannot
overshoot). -/
def planIterInvariant (cfg : RunConfig) (s : WFState) : Prop :=
  s.plan_iterations ≤ cfg.max_plan_iterations ∧
    ((s.node = WFNode.coordinator ∨ s.node = WFNode.background_investigator ∨
        s.node = WFNode.planner) →
      s.plan_iterations < cfg.max_plan_iterations)

theorem wfStep_preserves_planIterInvariant (cfg : RunConfig) (s : WFState)
    (d : Decision) (h : planIterInvariant cfg s) :
    planIterInvariant cfg (wfStep cfg s d) := by
  obtain ⟨node, n⟩ := s
  obtain ⟨h₁, h₂⟩ := h
  simp only [planIterInvariant] at h₁ h₂ ⊢
  cases node <;> cases d <;>
    simp only [wfStep] at h₂ ⊢ <;>
    (try split_ifs) <;> (try simp_all) <;> (try omega)

theorem runWorkflow_preserves_planIterInvariant (cfg : RunConfig)
    (ds : List Decision) (s : WFState)
    (h : planIterInvariant cfg s) :
    planIterInvariant cfg (runWorkflow cfg s ds) := by
  induction ds generalizing s with
  | nil => exact h
  | cons d ds ih =>
      exact ih (wfStep cfg s d)
        (wfStep_preserves_planIterInvariant cfg s d h)

/-- C6: in every run of the workflow whose bound admits at least one
planning round, every reachable state satisfies
`plan_iterations ≤ max_plan_iterations`: the planner increments the count
on each invocation and rejection loops through `human_feedback` are cut off
by the bound. -/
theorem plan_iterations_never_exceed_max (cfg : RunConfig)
    (ds : List Decision) (hmax : 1 ≤ cfg.max_plan_iterations) :
    (runWorkflow cfg initialWFState ds).plan_iterations
      ≤ cfg.max_plan_iterations := by
  have hinit : planIterInvariant cfg initialWFState := by
    constructor
    · exact Nat.zero_le _
    · intro _
      exact hmax
  exact (runWorkflow_preserves_planIterInvariant cfg ds initialWFState hinit).1

/-- Witness for C6: a run with bound 1 that loops through plan rejection
until the bound forces the plan onward. -/
theorem plan_iterations_never_exceed_max_witness :
    1 ≤ (⟨1, false, false⟩ : RunConfig).max_plan_iterations ∧
    (runWorkflow ⟨1, false, false⟩ initialWFState
        [Decision.planNeedsExecution, Decision.planNeedsExecution,
          Decision.reject, Decision.reject, Decision.dispatchResearch,
          Decision.dispatchDone]).plan_iterations
      ≤ (⟨1, false, false⟩ : RunConfig).max_plan_iterations := by
  refine ⟨by decide, ?_⟩
  exact plan_iterations_never_exceed_max ⟨1, false, false⟩
    [Decision.planNeedsExecution, Decision.planNeedsExecution,
      Decision.reject, Decision.reject, Decision.dispatchResearch,
      Decision.dispatchDone] (by decide)

/-- Modelled from the spec: the rank of a step status along the lifecycle
pending → in_progress → completed | failed (§3); the node code that drives
step statuses across a run is not in the sources at hand. -/
def stepStatusRank : StepStatus → Nat
  | StepStatus.pending => 0
  | StepStatus.in_progress => 1
  | StepStatus.completed => 2
  | StepStatus.failed => 2

/-- Modelled from the spec: the allowed forward transitions of a step's
status (§3): pending → in_progress, in_progress → completed,
in_progress → failed, and nothing else. -/
def allowedStepTransition : StepStatus → StepStatus → Bool
  | StepStatus.pending, StepStatus.in_progress => true
  | StepStatus.in_progress, StepStatus.completed => true
  | StepStatus.in_progress, StepStatus.failed => true
  | _, _ => false

/-- Modelled from the spec: the terminal step statuses (§3). -/
def terminalStepStatus : StepStatus → Bool
  | StepStatus.completed => true
  | StepStatus.failed => true
  | _ => false

/-- Modelled from the spec: the status history of one step across a run —
a status snapshot per observed instant, where each instant either keeps
the status or takes one allowed transition (§3, §5: node execution is
strictly sequential, so a per-step history is a single sequence). -/
def ValidStepHistory (f : Nat → StepStatus) : Prop :=
  ∀ n, f (n + 1) = f n ∨ allowedStepTransition (f n) (f (n + 1)) = true

theorem stepStatusRank_le_of_valid (f : Nat → StepStatus)
    (h : ValidStepHistory f) (n : Nat) :
    stepStatusRank (f n) ≤ stepStatusRank (f (n + 1)) := by
  rcases h n with heq | htr
  · rw [heq]
  · revert htr
    cases f n <;> cases f (n + 1) <;>
      simp [allowedStepTransition, stepStatusRank]

theorem stepStatusRank_lt_of_change (f : Nat → StepStatus)
    (h : ValidStepHistory f) (n : Nat) (hne : f (n + 1) ≠ f n) :
    stepStatusRank (f n) < stepStatusRank (f (n + 1)) := by
  rcases h n with heq | htr
  · exact absurd heq hne
  · revert htr
    cases f n <;> cases f (n + 1) <;>
      simp [allowedStepTransition, stepStatusRank]

theorem stepStatusRank_mono_of_valid (f : Nat → StepStatus)
    (h : ValidStepHistory f) (i j : Nat) (hij : i ≤ j) :
    stepStatusRank (f i) ≤ stepStatusRank (f j) := by
  induction j with
  | zero =>
      have : i = 0 := Nat.le_zero.mp hij
      rw [this]
  | succ j ih =>
      rcases Nat.lt_or_ge i (j + 1) with hlt | hge
      · exact Nat.le_trans (ih (Nat.lt_succ_iff.mp hlt))
          (stepStatusRank_le_of_valid f h j)
      · have : i = j + 1 := Nat.le_antisymm hij hge
        rw [this]

theorem terminal_absorbing_of_valid (f : Nat → StepStatus)
    (h : ValidStepHistory f) (i : Nat)
    (hterm : terminalStepStatus (f i) = true) :
    ∀ j, i ≤ j → f j = f i := by
  intro j hij
  induction j with
  | zero =>
      have : i = 0 := Nat.le_zero.mp hij
      rw [this]
  | succ j ih =>
      rcases Nat.lt_or_ge i (j + 1) with hlt | hge
      · have hj : f j = f i := ih (Nat.lt_succ_iff.mp hlt)
        rcases h j with heq | htr
        · rw [heq, hj]
        · exfalso
          rw [hj] at htr
          revert htr hterm
          cases f i <;> cases f (j + 1) <;>
            simp [allowedStepTransition, terminalStepStatus]
      · have : i = j + 1 := Nat.le_antisymm hij hge
        rw [this]

/-- C7: along any valid status history of a step, the status only moves
forward along pending → in_progress → {completed, failed}: the rank is
monotone, a terminal status never changes again, and a given actual
transition happens at most once (two distinct instants never perform the
same status change). -/
theorem step_status_forward_once (f : Nat → StepStatus)
    (h : ValidStepHistory f) :
    (∀ i j, i ≤ j → stepStatusRank (f i) ≤ stepStatusRank (f j)) ∧
    (∀ i, terminalStepStatus (f i) = true → ∀ j, i ≤ j → f j = f i) ∧
    (∀ i j, i < j → f (i + 1) ≠ f i → f (j + 1) ≠ f j →
      ¬(f i = f j ∧ f (i + 1) = f (j + 1))) := by
  refine ⟨stepStatusRank_mono_of_valid f h, terminal_absorbing_of_valid f h, ?_⟩
  intro i j hij hci hcj ⟨hfij, _⟩
  have h₁ : stepStatusRank (f i) < stepStatusRank (f (i + 1)) :=
    stepStatusRank_lt_of_change f h i hci
  have h₂ : stepStatusRank (f (i + 1)) ≤ stepStatusRank (f j) :=
    stepStatusRank_mono_of_valid f h (i + 1) j hij
  have h₃ : stepStatusRank (f j) < stepStatusRank (f (j + 1)) :=
    stepStatusRank_lt_of_change f h j hcj
  rw [hfij] at h₁
  omega

/-- Status history used by the C7 witness: one step going
pending → in_progress → completed, then stable. -/
def sampleHistory : Nat → StepStatus
  | 0 => StepStatus.pending
  | 1 => StepStatus.in_progress
  | Nat.succ (Nat.succ _) => StepStatus.completed

/-- Witness for C7 on a concrete three-phase history. -/
theorem step_status_forward_once_witness :
    ValidStepHistory sampleHistory ∧
    stepStatusRank (sampleHistory 0) ≤ stepStatusRank (sampleHistory 3) ∧
    sampleHistory 7 = sampleHistory 2 := by
  have hv : ValidStepHistory sampleHistory := by
    intro n
    match n with
    | 0 => exact Or.inr rfl
    | 1 => exact Or.inr rfl
    | Nat.succ (Nat.succ m) => exact Or.inl rfl
  refine ⟨hv, ?_, ?_⟩
  · exact (step_status_forward_once sampleHistory hv).1 0 3 (by decide)
  · exact (step_status_forward_once sampleHistory hv).2.1 2 (by decide) 7 (by decide)
